import Mathlib

/-!
# HarnessDockerResource.Create

A shallow embedding of `internal/provider/harness_docker_resource.go`.

`Create` is a procedure over a response object (diagnostics and state) that
talks to a number of collaborators.  Here it is a pure function: the answers
of the collaborators are fields of `Collaborators`, the order in which the Go
runtime walks a map is a field of `Runtime`, and the result is an `Outcome`
holding the response together with the trace of collaborator calls.
-/

namespace HarnessDocker

/-! ## Framework values -/

/-- A `types.String` of the plugin framework: null, unknown or a known value. -/
inductive TfString where
  | Null
  | Unknown
  | Known (s : String)
deriving DecidableEq, Repr

/-- The method `types.String.IsNull`. -/
def TfString.IsNull : TfString → Bool
  | .Null => true
  | _ => false

/-- The method `types.String.ValueString`: the empty string unless the value is known. -/
def TfString.ValueString : TfString → String
  | .Known s => s
  | _ => ""

/-- A `types.Bool` of the plugin framework. -/
inductive TfBool where
  | Null
  | Unknown
  | Known (b : Bool)
deriving DecidableEq, Repr

/-- The constructor `types.BoolValue`. -/
def TfBool.BoolValue (b : Bool) : TfBool := .Known b

/-- The method `types.Bool.ValueBool`: false unless the value is known. -/
def TfBool.ValueBool : TfBool → Bool
  | .Known b => b
  | _ => false

/-- A `types.Map` with string elements. -/
inductive TfMap where
  | Null
  | Unknown
  | Known (elems : List (String × TfString))
deriving DecidableEq, Repr

/-! ## Diagnostics -/

inductive Severity where
  | Error
  | Warning
deriving DecidableEq, Repr

structure Diagnostic where
  severity : Severity
  summary : String
  detail : String
deriving DecidableEq, Repr

/-- The method `Diagnostics.HasError`. -/
def HasError (ds : List Diagnostic) : Bool :=
  ds.any (fun d => decide (d.severity = Severity.Error))

/-- The method `Diagnostics.Append`: a diagnostic already in the collection is not added again. -/
def Append (ds : List Diagnostic) (more : List Diagnostic) : List Diagnostic :=
  more.foldl (fun acc d => if d ∈ acc then acc else acc ++ [d]) ds

/-- The method `Diagnostics.AddError`. -/
def AddError (ds : List Diagnostic) (summary detail : String) : List Diagnostic :=
  Append ds [⟨Severity.Error, summary, detail⟩]

/-! ## Go maps -/

/-- A Go `map[string]V`: its entries, no key twice.  The order of `entries`
is not observable by the program; a `range` loop sees the entries through a
`RangeOrder`. -/
structure GoMap (V : Type) where
  entries : List (String × V)
  nodup : (entries.map Prod.fst).Nodup

/-- The assignment `m[k] = v` on the entries: the value of an existing key is
replaced, a new key is added. -/
def setEntries {V : Type} (k : String) (v : V) : List (String × V) → List (String × V)
  | [] => [(k, v)]
  | e :: rest => if e.1 = k then (k, v) :: rest else e :: setEntries k v rest

/-- The map `make(map[string]V)`. -/
def GoMap.make {V : Type} : GoMap V := ⟨[], List.nodup_nil⟩

/-- The assignment `m[k] = v`. -/
def GoMap.set {V : Type} (m : GoMap V) (k : String) (v : V) : GoMap V :=
  ⟨setEntries k v m.entries, by
    have keys : ∀ l : List (String × V),
        (setEntries k v l).map Prod.fst = l.map Prod.fst ∨
        ((setEntries k v l).map Prod.fst = l.map Prod.fst ++ [k] ∧ k ∉ l.map Prod.fst) := by
      intro l
      induction l with
      | nil => right; simp [setEntries]
      | cons e rest ih =>
        by_cases h : e.1 = k
        · left; simp [setEntries, h]
        · rcases ih with ih | ⟨ih, hk⟩
          · left; simp [setEntries, h, ih]
          · right
            refine ⟨by simp [setEntries, h, ih], ?_⟩
            simp only [List.map_cons, List.mem_cons, not_or]
            exact ⟨fun hh => h hh.symm, hk⟩
    rcases keys m.entries with h | ⟨h, hk⟩
    · rw [h]; exact m.nodup
    · rw [h]
      exact List.Nodup.append m.nodup (List.nodup_singleton k) (by
        intro a ha hb
        simp only [List.mem_singleton] at hb
        subst hb
        exact hk ha)⟩

/-- The lookup `m[k]` with its presence flag. -/
def GoMap.get? {V : Type} (m : GoMap V) (k : String) : Option V :=
  (m.entries.find? (fun e => decide (e.1 = k))).map Prod.snd

/-- The order in which one `range` statement walks a map.  Go leaves it
unspecified: every entry is visited once, in some order. -/
structure RangeOrder (V : Type) where
  visit : List (String × V) → List (String × V)
  perm : ∀ l, (visit l).Perm l

/-- The order that walks the entries as stored. -/
def RangeOrder.stored {V : Type} : RangeOrder V := ⟨id, fun l => List.Perm.refl l⟩

/-- The order that walks the entries from the last stored to the first. -/
def RangeOrder.backwards {V : Type} : RangeOrder V := ⟨List.reverse, fun l => List.reverse_perm l⟩

/-! ## The data model -/

/-- Modelled from the spec: the declaration of `InventoryDataSourceModel` is
not in this file; the inventory reference is carried by its seed. -/
structure InventoryDataSourceModel where
  Seed : TfString
deriving DecidableEq, Repr

/-- Modelled from the spec: the declaration of `ContainerResourceMountModel`
is not in this file; these are the two fields of the `mounts` schema that
`Create` reads. -/
structure ContainerResourceMountModel where
  Source : TfString
  Destination : TfString
deriving DecidableEq, Repr

/-- Modelled from the spec: the declaration of `ContainerResourceModelNetwork`
is not in this file; this is the field of the `networks` schema that `Create`
reads. -/
structure ContainerResourceModelNetwork where
  Name : TfString
deriving DecidableEq, Repr

/-- Modelled from the spec: the declaration of `RegistryResourceAuthModel` is
not in this file; these are the three fields of the `auth` schema that
`Create` reads. -/
structure RegistryResourceAuthModel where
  Username : TfString
  Password : TfString
  Auth : TfString
deriving DecidableEq, Repr

/-- The struct `DockerRegistryResourceModel`; `Auth` is a pointer, nil when
the block is absent. -/
structure DockerRegistryResourceModel where
  Auth : Option RegistryResourceAuthModel
deriving DecidableEq, Repr

/-- Modelled from the spec: the declaration of the volume resource model is
not in this file; these are the fields of the `volumes.source` schema. -/
structure ContainerVolumeResourceModel where
  Id : TfString
  Name : TfString
  Inventory : InventoryDataSourceModel
deriving DecidableEq, Repr

/-- Modelled from the spec: the declaration of `FeatureHarnessVolumeMountModel`
is not in this file; `Create` reads `Source.Id` and the plain string
`Destination`. -/
structure FeatureHarnessVolumeMountModel where
  Source : ContainerVolumeResourceModel
  Destination : String
deriving DecidableEq, Repr

/-- Modelled from the spec: one request and limit pair of the `resources` schema. -/
structure ResourceQuantities where
  Request : TfString
  Limit : TfString
deriving DecidableEq, Repr

/-- Modelled from the spec: the declaration of `ContainerResources` is not in
this file; these are the blocks of the `resources` schema. -/
structure ContainerResources where
  Memory : Option ResourceQuantities
  Cpu : Option ResourceQuantities
deriving DecidableEq, Repr

/-- Modelled from the spec: the `timeouts.Value` of the plan, carried by its
`create` attribute. -/
structure TimeoutsValue where
  create : TfString
deriving DecidableEq, Repr

instance instDecidableEqGoMap {V : Type} [DecidableEq V] : DecidableEq (GoMap V) :=
  fun a b =>
    if h : a.entries = b.entries then
      isTrue (by cases a; cases b; cases h; rfl)
    else
      isFalse (fun hab => h (by rw [hab]))

/-- The struct `HarnessDockerResourceModel`.  A slice, map or pointer field is
an `Option`: `none` is Go's nil. -/
structure HarnessDockerResourceModel where
  Id : TfString
  Name : TfString
  Inventory : InventoryDataSourceModel
  Skipped : TfBool
  Volumes : Option (List FeatureHarnessVolumeMountModel)
  Image : TfString
  Privileged : TfBool
  Envs : TfMap
  Mounts : Option (List ContainerResourceMountModel)
  Networks : Option (GoMap ContainerResourceModelNetwork)
  Registries : Option (GoMap DockerRegistryResourceModel)
  Resources : Option ContainerResources
  Timeouts : TimeoutsValue
deriving DecidableEq

/-- Modelled from the spec: the Docker part of the provider-wide harness
defaults, whose declaration is not in this file (host socket path, default
mounts, default networks, default registries, default envs).  A nil slice or
map is the empty one here, since `Create` only ranges over them. -/
structure ProviderHarnessDockerModel where
  HostSocketPath : Option String
  Mounts : List ContainerResourceMountModel
  Networks : GoMap ContainerResourceModelNetwork
  Registries : GoMap DockerRegistryResourceModel
  Envs : TfMap
deriving DecidableEq

/-- Modelled from the spec: the `Harnesses` block of the provider data. -/
structure ProviderHarnessesModel where
  Docker : Option ProviderHarnessDockerModel
deriving DecidableEq

/-- Modelled from the spec: the provider data held by the store. -/
structure ProviderResourceData where
  Harnesses : Option ProviderHarnessesModel
deriving DecidableEq

/-- The part of `r.store` that is data: the provider-wide configuration. -/
structure ProviderStore where
  providerResourceData : ProviderResourceData
deriving DecidableEq

/-- The receiver of `Create`. -/
structure HarnessDockerResource where
  store : ProviderStore
deriving DecidableEq

/-! ## Options handed to the harness -/

/-- A parsed image reference, the result of `name.ParseReference`. -/
structure Reference where
  name : String
deriving DecidableEq, Repr

/-- Modelled from the spec: the parsed CPU and memory request and limit that
`ParseResources` returns. -/
structure ContainerResourcesRequest where
  CpuRequest : String
  CpuLimit : String
  MemoryRequest : String
  MemoryLimit : String
deriving DecidableEq, Repr

/-- The mount types `mount.TypeBind` and `mount.TypeVolume`. -/
inductive MountType where
  | TypeBind
  | TypeVolume
deriving DecidableEq, Repr

/-- The struct `container.ConfigMount`; `Type_` is its field `Type`. -/
structure ConfigMount where
  Type_ : MountType
  Source : String
  Destination : String
deriving DecidableEq, Repr

/-- A `docker.Option`, one constructor per option function `Create` calls. -/
inductive DockerOption where
  | WithImageRef (ref : Reference)
  | WithHostSocketPath (path : String)
  | WithContainerResources (rreq : ContainerResourcesRequest)
  | WithEnvs (envs : GoMap String)
  | WithAuthFromKeychain (registry : String)
  | WithAuthFromStatic (registry username password auth : String)
  | WithMounts (m : ConfigMount)
  | WithNetworks (name : String)
  | WithManagedVolumes (m : ConfigMount)
  | WithConfigVolumeName (name : String)
deriving DecidableEq

/-! ## Request, response, collaborators -/

/-- The plan of a create request: what `req.Plan.Get(ctx, &data)` returns,
its diagnostics and the model it decodes into `data`. -/
structure Plan where
  Get : List Diagnostic × HarnessDockerResourceModel

/-- The struct `resource.CreateRequest`. -/
structure CreateRequest where
  Plan : Plan

/-- The struct `resource.CreateResponse`; `State` is `none` until a model is
written to it. -/
structure CreateResponse where
  Diagnostics : List Diagnostic
  State : Option HarnessDockerResourceModel
deriving DecidableEq

/-- The answers of everything `Create` calls that is not in this file.  A
call that can fail answers with `Except`, the error being its message. -/
structure Collaborators where
  /-- The method `r.ShouldSkip`: its result and the diagnostics it adds to the response. -/
  ShouldSkip : CreateRequest → Bool × List Diagnostic
  /-- The diagnostics of `data.Timeouts.Create`; the duration only bounds real time. -/
  TimeoutsCreate : TimeoutsValue → List Diagnostic
  /-- The method `r.store.Logger`, by inventory, harness id and harness name. -/
  Logger : InventoryDataSourceModel → String → String → Except String Unit
  ParseReference : String → Except String Reference
  ParseResources : ContainerResources → Except String ContainerResourcesRequest
  /-- The function `filepath.Abs`. -/
  Abs : String → Except String String
  /-- The method `types.Map.ElementsAs` into a `provider.Env`: its diagnostics and the map it fills. -/
  ElementsAs : TfMap → List Diagnostic × GoMap String
  /-- The labels `provider.DefaultLabels()`. -/
  DefaultLabels : List (String × String)
  /-- The engine call `r.store.cli.VolumeCreate`, by volume name. -/
  VolumeCreate : String → Except String Unit
  /-- The constructor `docker.New`, by id and options. -/
  New : String → List DockerOption → Except String Unit
  /-- The call `harness.Setup()(ctx)` on the harness built from this id and these options. -/
  Setup : String → List DockerOption → Except String Unit
  /-- The diagnostics of `resp.State.Set`. -/
  StateSet : HarnessDockerResourceModel → List Diagnostic

/-- The choices of the Go runtime: one order for each `range` over a map. -/
structure Runtime where
  /-- The loop `for k, v := range c.Networks`. -/
  defaultNetworks : RangeOrder ContainerResourceModelNetwork
  /-- The loop `for k, v := range c.Registries`. -/
  defaultRegistries : RangeOrder DockerRegistryResourceModel
  /-- The loop `for regAddress, regInfo := range registries`. -/
  registries : RangeOrder DockerRegistryResourceModel
  /-- The loop `for _, network := range networks`. -/
  networks : RangeOrder ContainerResourceModelNetwork

/-- A call `Create` makes on the engine, the harness registry or the state. -/
inductive Call where
  | VolumeCreate (name : String) (labels : List (String × String))
  | New (id : String) (opts : List DockerOption)
  | HarnessesSet (id : String) (opts : List DockerOption)
  | Setup (id : String) (opts : List DockerOption)
  | StateSet (data : HarnessDockerResourceModel)
deriving DecidableEq

/-- What one run of `Create` leaves: the response and the calls it made, in order. -/
structure Outcome where
  resp : CreateResponse
  calls : List Call
deriving DecidableEq

/-- The statement `resp.Diagnostics.Append(resp.State.Set(ctx, &data)...)`:
the state holds the model unless `Set` reports an error. -/
def stateSet (c : Collaborators) (resp : CreateResponse) (data : HarnessDockerResourceModel) :
    CreateResponse :=
  { Diagnostics := Append resp.Diagnostics (c.StateSet data)
    State := if HasError (c.StateSet data) then resp.State else some data }

/-! ## Create, lines 115 to 220: the option list -/

/-- The provider-wide Docker defaults, when `Harnesses` and `Harnesses.Docker` are both non-nil. -/
def dockerDefaults (r : HarnessDockerResource) : Option ProviderHarnessDockerModel :=
  match r.store.providerResourceData.Harnesses with
  | none => none
  | some h => h.Docker

/-- Lines 122 to 126: the host socket path option. -/
def hostSocketOpts (r : HarnessDockerResource) : List DockerOption :=
  match dockerDefaults r with
  | none => []
  | some c =>
    match c.HostSocketPath with
    | none => []
    | some p => [DockerOption.WithHostSocketPath p]

/-- Lines 143 to 151: the resources option, or the error of `ParseResources`. -/
def resourcesOpts (c : Collaborators) (data : HarnessDockerResourceModel) :
    Except String (List DockerOption) :=
  match data.Resources with
  | none => .ok []
  | some res =>
    match c.ParseResources res with
    | .error err => .error err
    | .ok rreq => .ok [DockerOption.WithContainerResources rreq]

/-- Lines 128 to 131 and 155: the resource-level mounts, then the provider-default ones. -/
def mergedMounts (r : HarnessDockerResource) (data : HarnessDockerResourceModel) :
    List ContainerResourceMountModel :=
  let mounts := match data.Mounts with
    | none => []
    | some ms => ms
  match dockerDefaults r with
  | none => mounts
  | some c => mounts ++ c.Mounts

/-- A loop `for k, v := range src { dst[k] = v }`. -/
def assignAll {V : Type} (order : RangeOrder V) (src dst : GoMap V) : GoMap V :=
  (order.visit src.entries).foldl (fun m e => m.set e.1 e.2) dst

/-- Lines 138 to 141 and 157 to 159: the map `networks` after the provider defaults are assigned into it. -/
def mergedNetworks (rt : Runtime) (r : HarnessDockerResource) (data : HarnessDockerResourceModel) :
    GoMap ContainerResourceModelNetwork :=
  let networks := match data.Networks with
    | none => GoMap.make
    | some m => m
  match dockerDefaults r with
  | none => networks
  | some c => assignAll rt.defaultNetworks c.Networks networks

/-- Lines 133 to 136 and 161 to 163: the map `registries` after the provider defaults are assigned into it. -/
def mergedRegistries (rt : Runtime) (r : HarnessDockerResource) (data : HarnessDockerResourceModel) :
    GoMap DockerRegistryResourceModel :=
  let registries := match data.Registries with
    | none => GoMap.make
    | some m => m
  match dockerDefaults r with
  | none => registries
  | some c => assignAll rt.defaultRegistries c.Registries registries

/-- The model `data` after lines 153 to 163.  A Go map is a reference: when
`data.Networks` is non-nil, `networks` is that very map, and the assignments
of line 158 are made in it; likewise `data.Registries` and line 162.  When
the field is nil the assignments go to the fresh map and the field stays
nil.  `append` leaves the slice `data.Mounts` as it was. -/
def dataAfterMerge (rt : Runtime) (r : HarnessDockerResource) (data : HarnessDockerResourceModel) :
    HarnessDockerResourceModel :=
  { data with
    Networks := match data.Networks with
      | none => none
      | some _ => some (mergedNetworks rt r data)
    Registries := match data.Registries with
      | none => none
      | some _ => some (mergedRegistries rt r data) }

/-- Lines 165 to 169: the env option of the provider defaults; `none` is the
bare `return` taken when `ElementsAs` reports an error. -/
def defaultEnvOpts (c : Collaborators) (r : HarnessDockerResource) : Option (List DockerOption) :=
  match dockerDefaults r with
  | none => some []
  | some cfg =>
    if HasError (c.ElementsAs cfg.Envs).1 then none
    else some [DockerOption.WithEnvs (c.ElementsAs cfg.Envs).2]

/-- Lines 174 to 185: the option of one registry. -/
def authOpt (regAddress : String) (regInfo : DockerRegistryResourceModel) : List DockerOption :=
  match regInfo.Auth with
  | none => []
  | some a =>
    if a.Auth.IsNull && a.Password.IsNull && a.Username.IsNull then
      [DockerOption.WithAuthFromKeychain regAddress]
    else
      [DockerOption.WithAuthFromStatic regAddress a.Username.ValueString a.Password.ValueString
        a.Auth.ValueString]

/-- Lines 173 to 186: the auth options, in the order the runtime walks `registries`. -/
def authOpts (rt : Runtime) (registries : GoMap DockerRegistryResourceModel) : List DockerOption :=
  (rt.registries.visit registries.entries).flatMap (fun e => authOpt e.1 e.2)

/-- Lines 188 to 200: the mount options, or the error of the first source
that `filepath.Abs` rejects. -/
def mountOpts (c : Collaborators) : List ContainerResourceMountModel → Except String (List DockerOption)
  | [] => .ok []
  | m :: rest =>
    match c.Abs m.Source.ValueString with
    | .error err => .error err
    | .ok src =>
      match mountOpts c rest with
      | .error err => .error err
      | .ok opts =>
        .ok (DockerOption.WithMounts ⟨MountType.TypeBind, src, m.Destination.ValueString⟩ :: opts)

/-- Lines 202 to 204: the network options, in the order the runtime walks `networks`. -/
def networkOpts (rt : Runtime) (networks : GoMap ContainerResourceModelNetwork) : List DockerOption :=
  (rt.networks.visit networks.entries).map (fun e => DockerOption.WithNetworks e.2.Name.ValueString)

/-- Lines 206 to 214: the managed volume options. -/
def volumeOpts (data : HarnessDockerResourceModel) : List DockerOption :=
  match data.Volumes with
  | none => []
  | some vols =>
    vols.map (fun vol =>
      DockerOption.WithManagedVolumes ⟨MountType.TypeVolume, vol.Source.Id.ValueString, vol.Destination⟩)

/-- Lines 216 to 220: the env option of the resource; `none` is the bare
`return` taken when `ElementsAs` reports an error. -/
def envOpts (c : Collaborators) (data : HarnessDockerResourceModel) : Option (List DockerOption) :=
  if HasError (c.ElementsAs data.Envs).1 then none
  else some [DockerOption.WithEnvs (c.ElementsAs data.Envs).2]

/-- Lines 115 to 220 of `Create`.  `diags` is `resp.Diagnostics` at line 115.
The result is either the diagnostics of the response at an early `return`, or
the option list `opts` at line 221 with the model `data` as it then is. -/
def buildOpts (c : Collaborators) (rt : Runtime) (r : HarnessDockerResource)
    (data : HarnessDockerResourceModel) (diags : List Diagnostic) :
    Except (List Diagnostic) (List DockerOption × HarnessDockerResourceModel) :=
  match c.ParseReference data.Image.ValueString with
  | .error err => .error (AddError diags "invalid resource input" ("invalid image reference: " ++ err))
  | .ok ref =>
    match resourcesOpts c data with
    | .error err => .error (AddError diags "failed to parse resources" err)
    | .ok resOpts =>
      match defaultEnvOpts c r with
      | none => .error diags
      | some defEnv =>
        match mountOpts c (mergedMounts r data) with
        | .error err =>
          .error (AddError diags "invalid resource input" ("invalid mount source: " ++ err))
        | .ok mOpts =>
          match envOpts c data with
          | none => .error diags
          | some env =>
            .ok ([DockerOption.WithImageRef ref] ++ hostSocketOpts r ++ resOpts ++ defEnv
                  ++ authOpts rt (mergedRegistries rt r data) ++ mOpts
                  ++ networkOpts rt (mergedNetworks rt r data) ++ volumeOpts data ++ env,
                 dataAfterMerge rt r data)

/-! ## Create -/

/-- Lines 222 to 253 of `Create`: the config volume, the harness, its setup
and the state. -/
def provision (c : Collaborators) (opts : List DockerOption) (data : HarnessDockerResourceModel)
    (diags : List Diagnostic) : Outcome :=
  let id := data.Id.ValueString
  let configVolumeName := id ++ "-config"
  let volumeCall := Call.VolumeCreate configVolumeName c.DefaultLabels
  match c.VolumeCreate configVolumeName with
  | .error err =>
    ⟨⟨AddError diags "failed to create config volume for the Docker harness" err, none⟩,
      [volumeCall]⟩
  | .ok _ =>
    let opts := opts ++ [DockerOption.WithConfigVolumeName configVolumeName]
    match c.New id opts with
    | .error err => ⟨⟨AddError diags "invalid provider data" err, none⟩, [volumeCall, Call.New id opts]⟩
    | .ok _ =>
      match c.Setup id opts with
      | .error err =>
        ⟨⟨AddError diags "failed to setup harness" err, none⟩,
          [volumeCall, Call.New id opts, Call.HarnessesSet id opts, Call.Setup id opts]⟩
      | .ok _ =>
        ⟨stateSet c ⟨diags, none⟩ data,
          [volumeCall, Call.New id opts, Call.HarnessesSet id opts, Call.Setup id opts,
            Call.StateSet data]⟩

/-- The method `HarnessDockerResource.Create`, on a response that starts with
no diagnostics and no state. -/
def Create (c : Collaborators) (rt : Runtime) (r : HarnessDockerResource) (req : CreateRequest) :
    Outcome :=
  -- lines 87 to 90
  let diags := Append [] req.Plan.Get.1
  if HasError diags then ⟨⟨diags, none⟩, []⟩
  else
    -- lines 92 to 95
    let skip := (c.ShouldSkip req).1
    let diags := Append diags (c.ShouldSkip req).2
    if HasError diags then ⟨⟨diags, none⟩, []⟩
    else
      -- line 96
      let data := { req.Plan.Get.2 with Skipped := TfBool.BoolValue skip }
      -- lines 98 to 101
      if data.Skipped.ValueBool then ⟨stateSet c ⟨diags, none⟩ data, [Call.StateSet data]⟩
      else
        -- lines 103 and 104
        let diags := Append diags (c.TimeoutsCreate data.Timeouts)
        -- lines 109 to 113
        match c.Logger data.Inventory data.Id.ValueString data.Name.ValueString with
        | .error err => ⟨⟨AddError diags "failed to initialize logger(s)" err, none⟩, []⟩
        | .ok _ =>
          -- lines 115 to 220
          match buildOpts c rt r data diags with
          | .error diags => ⟨⟨diags, none⟩, []⟩
          | .ok (opts, data) =>
            -- lines 222 to 253
            provision c opts data diags

/-! ## Reading an option list -/

/-- The option function an option was made by. -/
inductive OptionKind where
  | ImageRef
  | HostSocketPath
  | ContainerResources
  | Envs
  | Auth
  | Mounts
  | Networks
  | ManagedVolumes
  | ConfigVolumeName
deriving DecidableEq, Repr

/-- The option function an option was made by. -/
def DockerOption.kind : DockerOption → OptionKind
  | .WithImageRef _ => .ImageRef
  | .WithHostSocketPath _ => .HostSocketPath
  | .WithContainerResources _ => .ContainerResources
  | .WithEnvs _ => .Envs
  | .WithAuthFromKeychain _ => .Auth
  | .WithAuthFromStatic _ _ _ _ => .Auth
  | .WithMounts _ => .Mounts
  | .WithNetworks _ => .Networks
  | .WithManagedVolumes _ => .ManagedVolumes
  | .WithConfigVolumeName _ => .ConfigVolumeName

/-- The registry address of an auth option. -/
def DockerOption.authRegistry : DockerOption → Option String
  | .WithAuthFromKeychain registry => some registry
  | .WithAuthFromStatic registry _ _ _ => some registry
  | _ => none

/-- The auth options of an option list for one registry address, in order. -/
def authOptsFor (registry : String) (opts : List DockerOption) : List DockerOption :=
  opts.filter (fun o => decide (o.authRegistry = some registry))

/-- The options of one kind in an option list, in order. -/
def optsOfKind (k : OptionKind) (opts : List DockerOption) : List DockerOption :=
  opts.filter (fun o => decide (o.kind = k))

/-! ## Sample inputs -/

/-- A sample `ElementsAs`: a map with a null or unknown element, or an unknown
map, does not convert to a `provider.Env`. -/
def sampleElementsAs : TfMap → List Diagnostic × GoMap String
  | .Known elems =>
    if elems.all (fun e => match e.2 with
        | .Known _ => true
        | _ => false) then
      ([], elems.foldl (fun acc e => acc.set e.1 e.2.ValueString) GoMap.make)
    else ([⟨Severity.Error, "Value Conversion Error", "unhandled null or unknown value"⟩], GoMap.make)
  | .Null => ([], GoMap.make)
  | .Unknown => ([⟨Severity.Error, "Value Conversion Error", "unhandled unknown value"⟩], GoMap.make)

/-- A sample `filepath.Abs` of a process whose working directory is `/work`. -/
def sampleAbs (s : String) : Except String String :=
  match s.data with
  | '/' :: _ => .ok s
  | _ => .ok ("/work/" ++ s)

/-- A sample `filepath.Abs` of a process whose working directory is gone: a
relative path cannot be made absolute. -/
def lostCwdAbs (s : String) : Except String String :=
  match s.data with
  | '/' :: _ => .ok s
  | _ => .error "getwd: no such file or directory"

/-- Collaborators that never fail and never skip. -/
def sampleCollaborators : Collaborators where
  ShouldSkip := fun _ => (false, [])
  TimeoutsCreate := fun _ => []
  Logger := fun _ _ _ => .ok ()
  ParseReference := fun s => .ok ⟨s⟩
  ParseResources := fun _ => .ok ⟨"", "", "", ""⟩
  Abs := sampleAbs
  ElementsAs := sampleElementsAs
  DefaultLabels := [("dev.chainguard.imagetest", "true")]
  VolumeCreate := fun _ => .ok ()
  New := fun _ _ => .ok ()
  Setup := fun _ _ => .ok ()
  StateSet := fun _ => []

/-- The sample collaborators, with a skip predicate that says skip. -/
def skippingCollaborators : Collaborators :=
  { sampleCollaborators with ShouldSkip := fun _ => (true, []) }

/-- The sample collaborators, in a process whose working directory is gone. -/
def lostCwdCollaborators : Collaborators :=
  { sampleCollaborators with Abs := lostCwdAbs }

/-- The sample collaborators, with an engine that refuses to create volumes. -/
def noVolumeCollaborators : Collaborators :=
  { sampleCollaborators with VolumeCreate := fun _ => .error "no space left on device" }

/-- The runtime that walks every map as stored. -/
def storedRuntime : Runtime :=
  ⟨RangeOrder.stored, RangeOrder.stored, RangeOrder.stored, RangeOrder.stored⟩

/-- The runtime that walks every map from the last stored entry to the first. -/
def backwardsRuntime : Runtime :=
  ⟨RangeOrder.backwards, RangeOrder.backwards, RangeOrder.backwards, RangeOrder.backwards⟩

/-- A provider without harness defaults. -/
def noDefaults : HarnessDockerResource := ⟨⟨⟨none⟩⟩⟩

/-- A provider with the given Docker harness defaults. -/
def withDefaults (cfg : ProviderHarnessDockerModel) : HarnessDockerResource :=
  ⟨⟨⟨some ⟨some cfg⟩⟩⟩⟩

/-- The harness of the spec scenario: id `h1`, image `repo/img:tag`, one mount `/a` to `/b`. -/
def h1 : HarnessDockerResourceModel where
  Id := .Known "h1"
  Name := .Known "h1"
  Inventory := ⟨.Known "seed"⟩
  Skipped := .Unknown
  Volumes := none
  Image := .Known "repo/img:tag"
  Privileged := .Known false
  Envs := .Null
  Mounts := some [⟨.Known "/a", .Known "/b"⟩]
  Networks := none
  Registries := none
  Resources := none
  Timeouts := ⟨.Null⟩

/-- The request whose plan decodes, without diagnostics, to the given model. -/
def requestOf (data : HarnessDockerResourceModel) : CreateRequest := ⟨⟨([], data)⟩⟩

/-- The networks `n1 -> netA`. -/
def netA : GoMap ContainerResourceModelNetwork := ⟨[("n1", ⟨.Known "netA"⟩)], by simp⟩

/-- The networks `n1 -> netB`. -/
def netB : GoMap ContainerResourceModelNetwork := ⟨[("n1", ⟨.Known "netB"⟩)], by simp⟩

/-- The registries `r1 -> static user "provider"`. -/
def regA : GoMap DockerRegistryResourceModel :=
  ⟨[("r1", ⟨some ⟨.Known "provider", .Null, .Null⟩⟩)], by simp⟩

/-- The registries `r1 -> static user "resource"`. -/
def regB : GoMap DockerRegistryResourceModel :=
  ⟨[("r1", ⟨some ⟨.Known "resource", .Null, .Null⟩⟩)], by simp⟩

/-- Provider defaults with the network `n1 -> netA` and the registry `r1` of the provider. -/
def collidingDefaults : ProviderHarnessDockerModel := ⟨none, [], netA, regA, .Null⟩

/-- The harness `h1` with the network `n1 -> netB` and the registry `r1` of the resource. -/
def collidingHarness : HarnessDockerResourceModel :=
  { h1 with Networks := some netB, Registries := some regB }

/-- Three registries: one with an empty auth block, one with a username and
an auth string, one without auth block. -/
def authRegistries : GoMap DockerRegistryResourceModel :=
  ⟨[("cgr.dev", ⟨some ⟨.Null, .Null, .Null⟩⟩),
    ("ghcr.io", ⟨some ⟨.Known "user", .Null, .Known "dXNlcg=="⟩⟩),
    ("docker.io", ⟨none⟩)], by decide⟩

/-- The harness `h1` with the three registries. -/
def authHarness : HarnessDockerResourceModel :=
  { h1 with Registries := some authRegistries }

/-- The option list of `authHarness` under the backwards runtime, without provider defaults. -/
def authHarnessOpts : List DockerOption :=
  [.WithImageRef ⟨"repo/img:tag"⟩,
   .WithAuthFromStatic "ghcr.io" "user" "" "dXNlcg==",
   .WithAuthFromKeychain "cgr.dev",
   .WithMounts ⟨.TypeBind, "/a", "/b"⟩,
   .WithEnvs GoMap.make]

/-- The option list of `h1` without provider defaults, at line 221. -/
def h1Opts : List DockerOption :=
  [.WithImageRef ⟨"repo/img:tag"⟩,
   .WithMounts ⟨.TypeBind, "/a", "/b"⟩,
   .WithEnvs GoMap.make]

/-- The env map `A=1`. -/
def envA : GoMap String := ⟨[("A", "1")], by simp⟩

/-- The env map `B=2`. -/
def envB : GoMap String := ⟨[("B", "2")], by simp⟩

/-- Provider defaults with the envs `A=1`. -/
def envDefaults : ProviderHarnessDockerModel :=
  ⟨none, [], GoMap.make, GoMap.make, .Known [("A", .Known "1")]⟩

/-- The harness `h1` with the envs `B=2`. -/
def envHarness : HarnessDockerResourceModel :=
  { h1 with Envs := .Known [("B", .Known "2")] }

/-- The option list of `envHarness` under `envDefaults`, at line 221. -/
def envHarnessOpts : List DockerOption :=
  [.WithImageRef ⟨"repo/img:tag"⟩,
   .WithEnvs envA,
   .WithMounts ⟨.TypeBind, "/a", "/b"⟩,
   .WithEnvs envB]

/-- The networks `a -> netA`, `b -> netB`. -/
def twoNetworks : GoMap ContainerResourceModelNetwork :=
  ⟨[("a", ⟨.Known "netA"⟩), ("b", ⟨.Known "netB"⟩)], by decide⟩

/-- The harness `h1` with the two networks. -/
def twoNetworksHarness : HarnessDockerResourceModel :=
  { h1 with Networks := some twoNetworks }

/-- The harness `h1` with the envs `FOO = null`. -/
def nullEnvHarness : HarnessDockerResourceModel :=
  { h1 with Envs := .Known [("FOO", .Null)] }

/-- Provider defaults with the envs `FOO = null`. -/
def nullEnvDefaults : ProviderHarnessDockerModel :=
  ⟨none, [], GoMap.make, GoMap.make, .Known [("FOO", .Null)]⟩

/-- The harness `h1` with the relative mount source `data`. -/
def relativeMountHarness : HarnessDockerResourceModel :=
  { h1 with Mounts := some [⟨.Known "data", .Known "/b"⟩] }

/-- Provider defaults with the network `n2 -> netA`. -/
def otherNetworkDefaults : ProviderHarnessDockerModel :=
  ⟨none, [], ⟨[("n2", ⟨.Known "netA"⟩)], by simp⟩, GoMap.make, .Null⟩

/-- The harness `h1` with the network `n1 -> netB`. -/
def networkHarness : HarnessDockerResourceModel :=
  { h1 with Networks := some netB }

/-- The networks `n1 -> netB`, `n2 -> netA`. -/
def bothNetworks : GoMap ContainerResourceModelNetwork :=
  ⟨[("n1", ⟨.Known "netB"⟩), ("n2", ⟨.Known "netA"⟩)], by decide⟩

/-! ## Diagnostics: lemmas -/

theorem mem_Append (ds more : List Diagnostic) (d : Diagnostic) :
    d ∈ Append ds more ↔ d ∈ ds ∨ d ∈ more := by
  unfold Append
  induction more generalizing ds with
  | nil => simp
  | cons x xs ih =>
    rw [List.foldl_cons, ih]
    by_cases hx : x ∈ ds
    · simp only [if_pos hx, List.mem_cons]
      constructor
      · rintro (h | h)
        · exact Or.inl h
        · exact Or.inr (Or.inr h)
      · rintro (h | h | h)
        · exact Or.inl h
        · exact Or.inl (h ▸ hx)
        · exact Or.inr h
    · simp only [if_neg hx, List.mem_append, List.mem_singleton, List.mem_cons]
      tauto

theorem HasError_iff (ds : List Diagnostic) :
    HasError ds = true ↔ ∃ d ∈ ds, d.severity = Severity.Error := by
  simp [HasError]

theorem HasError_Append (ds more : List Diagnostic) :
    HasError (Append ds more) = (HasError ds || HasError more) := by
  rw [Bool.eq_iff_iff, Bool.or_eq_true, HasError_iff, HasError_iff, HasError_iff]
  constructor
  · rintro ⟨d, hd, he⟩
    rcases (mem_Append ds more d).1 hd with h | h
    · exact Or.inl ⟨d, h, he⟩
    · exact Or.inr ⟨d, h, he⟩
  · rintro (⟨d, hd, he⟩ | ⟨d, hd, he⟩)
    · exact ⟨d, (mem_Append ds more d).2 (Or.inl hd), he⟩
    · exact ⟨d, (mem_Append ds more d).2 (Or.inr hd), he⟩

theorem HasError_AddError (ds : List Diagnostic) (summary detail : String) :
    HasError (AddError ds summary detail) = true := by
  unfold AddError
  rw [HasError_Append]
  simp [HasError]

/-! ## Go maps: lemmas -/

theorem find_setEntries_self {V : Type} (k : String) (v : V) (l : List (String × V)) :
    (setEntries k v l).find? (fun e => decide (e.1 = k)) = some (k, v) := by
  induction l with
  | nil => simp [setEntries]
  | cons e rest ih =>
    by_cases h : e.1 = k
    · simp [setEntries, h]
    · simp [setEntries, h, List.find?_cons, ih]

theorem find_setEntries_ne {V : Type} (k k' : String) (v : V) (l : List (String × V))
    (hk : k' ≠ k) :
    (setEntries k v l).find? (fun e => decide (e.1 = k')) =
      l.find? (fun e => decide (e.1 = k')) := by
  induction l with
  | nil => simp [setEntries, List.find?_cons, Ne.symm hk]
  | cons e rest ih =>
    by_cases h : e.1 = k
    · have h' : ¬ e.1 = k' := fun hh => hk (hh.symm.trans h)
      simp [setEntries, h, List.find?_cons, h', Ne.symm hk]
    · simp only [setEntries, h, if_false, List.find?_cons, ih]

theorem get?_set_self {V : Type} (m : GoMap V) (k : String) (v : V) :
    (m.set k v).get? k = some v := by
  simp [GoMap.get?, GoMap.set, find_setEntries_self]

theorem get?_set_ne {V : Type} (m : GoMap V) (k k' : String) (v : V) (hk : k' ≠ k) :
    (m.set k v).get? k' = m.get? k' := by
  simp [GoMap.get?, GoMap.set, find_setEntries_ne k k' v m.entries hk]

/-- An entry is in a map exactly when the lookup of its key gives its value. -/
theorem mem_entries_iff {V : Type} (m : GoMap V) (k : String) (v : V) :
    (k, v) ∈ m.entries ↔ m.get? k = some v := by
  obtain ⟨l, hl⟩ := m
  simp only [GoMap.get?]
  induction l with
  | nil => simp
  | cons e rest ih =>
    simp only [List.map_cons, List.nodup_cons] at hl
    by_cases h : e.1 = k
    · simp only [List.mem_cons, List.find?_cons, h, decide_True, Option.map_some', Option.some.injEq]
      constructor
      · rintro (hh | hh)
        · rw [← hh]
        · exact absurd (List.mem_map_of_mem Prod.fst hh) (h ▸ hl.1)
      · intro hh
        left
        rw [← hh, ← h]
    · simp only [List.mem_cons, List.find?_cons, h, decide_False]
      rw [← ih hl.2]
      constructor
      · rintro (hh | hh)
        · exact absurd (by rw [← hh]) h
        · exact hh
      · exact fun hh => Or.inr hh

theorem get?_eq_none_iff {V : Type} (m : GoMap V) (k : String) :
    m.get? k = none ↔ k ∉ m.entries.map Prod.fst := by
  simp only [GoMap.get?, Option.map_eq_none', List.find?_eq_none, decide_eq_true_eq, List.mem_map,
    not_exists, not_and]

/-- Assignments to other keys leave the value of `k`. -/
theorem get?_foldl_set_of_not_mem {V : Type} (l : List (String × V)) (dst : GoMap V) (k : String)
    (hk : k ∉ l.map Prod.fst) :
    (l.foldl (fun m e => m.set e.1 e.2) dst).get? k = dst.get? k := by
  induction l generalizing dst with
  | nil => rfl
  | cons e rest ih =>
    simp only [List.map_cons, List.mem_cons, not_or] at hk
    rw [List.foldl_cons, ih _ hk.2, get?_set_ne _ _ _ _ hk.1]

/-- The assignment of an entry whose key is assigned once decides the value of that key. -/
theorem get?_foldl_set_of_mem {V : Type} (l : List (String × V)) (dst : GoMap V) (k : String)
    (v : V) (hl : (l.map Prod.fst).Nodup) (hk : (k, v) ∈ l) :
    (l.foldl (fun m e => m.set e.1 e.2) dst).get? k = some v := by
  induction l generalizing dst with
  | nil => simp at hk
  | cons e rest ih =>
    simp only [List.map_cons, List.nodup_cons] at hl
    rw [List.foldl_cons]
    rcases List.mem_cons.1 hk with h | h
    · subst h
      rw [get?_foldl_set_of_not_mem _ _ _ hl.1, get?_set_self]
    · exact ih _ hl.2 h

/-- The loop `for k, v := range src { dst[k] = v }` in any order: a key of
`src` gets the value `src` has, every other key keeps the value of `dst`. -/
theorem get?_assignAll {V : Type} (order : RangeOrder V) (src dst : GoMap V) (k : String) :
    (assignAll order src dst).get? k =
      match src.get? k with
      | some v => some v
      | none => dst.get? k := by
  have hperm := order.perm src.entries
  have hnd : ((order.visit src.entries).map Prod.fst).Nodup :=
    (List.Perm.nodup_iff (hperm.map Prod.fst)).2 src.nodup
  unfold assignAll
  cases hs : src.get? k with
  | some v =>
    have hmem : (k, v) ∈ order.visit src.entries :=
      hperm.mem_iff.2 ((mem_entries_iff src k v).2 hs)
    exact get?_foldl_set_of_mem _ _ _ _ hnd hmem
  | none =>
    have hk : k ∉ (order.visit src.entries).map Prod.fst := by
      rw [(hperm.map Prod.fst).mem_iff]
      exact (get?_eq_none_iff src k).1 hs
    exact get?_foldl_set_of_not_mem _ _ _ hk

/-! ## Merging provider defaults into the resource -/

/-- C1, as the claim has it, fails: with provider defaults `n1 -> netA`,
`r1 -> provider` and a harness with `n1 -> netB`, `r1 -> resource`, the merged
maps hold the entries of the provider, not those of the harness. -/
theorem merged_collision_keeps_default :
    collidingDefaults.Networks.get? "n1" = some ⟨.Known "netA"⟩ ∧
    netB.get? "n1" = some ⟨.Known "netB"⟩ ∧
    (mergedNetworks storedRuntime (withDefaults collidingDefaults) collidingHarness).get? "n1"
      ≠ some ⟨.Known "netB"⟩ ∧
    regB.get? "r1" = some ⟨some ⟨.Known "resource", .Null, .Null⟩⟩ ∧
    (mergedRegistries storedRuntime (withDefaults collidingDefaults) collidingHarness).get? "r1"
      ≠ some ⟨some ⟨.Known "resource", .Null, .Null⟩⟩ := by
  decide

/-- C1, amended: for every key present both in the provider-default and in
the resource-level networks map (respectively registries map), the merged map
that `Create` turns into network (respectively registry-auth) options maps the
key to the entry of the provider defaults, and the option of that entry is
among the options emitted. -/
theorem merged_default_entry_wins (rt : Runtime) (r : HarnessDockerResource)
    (data : HarnessDockerResourceModel) (cfg : ProviderHarnessDockerModel)
    (hcfg : dockerDefaults r = some cfg) :
    (∀ k dn sn sm, cfg.Networks.get? k = some dn → data.Networks = some sm → sm.get? k = some sn →
        (mergedNetworks rt r data).get? k = some dn ∧
        DockerOption.WithNetworks dn.Name.ValueString ∈
          networkOpts rt (mergedNetworks rt r data)) ∧
    (∀ k dr sr sm, cfg.Registries.get? k = some dr → data.Registries = some sm →
        sm.get? k = some sr →
        (mergedRegistries rt r data).get? k = some dr ∧
        ∀ o ∈ authOpt k dr, o ∈ authOpts rt (mergedRegistries rt r data)) := by
  constructor
  · intro k dn sn sm hd _ _
    have hget : (mergedNetworks rt r data).get? k = some dn := by
      simp only [mergedNetworks, hcfg, get?_assignAll, hd]
    refine ⟨hget, ?_⟩
    have hmem := (mem_entries_iff _ k dn).2 hget
    have hvis := (rt.networks.perm (mergedNetworks rt r data).entries).mem_iff.2 hmem
    exact List.mem_map.2 ⟨(k, dn), hvis, rfl⟩
  · intro k dr sr sm hd _ _
    have hget : (mergedRegistries rt r data).get? k = some dr := by
      simp only [mergedRegistries, hcfg, get?_assignAll, hd]
    refine ⟨hget, ?_⟩
    intro o ho
    have hmem := (mem_entries_iff _ k dr).2 hget
    have hvis := (rt.registries.perm (mergedRegistries rt r data).entries).mem_iff.2 hmem
    exact List.mem_flatMap.2 ⟨(k, dr), hvis, ho⟩

/-- C1, amended, at the colliding provider defaults and harness. -/
theorem merged_default_entry_wins_witness :
    (mergedNetworks backwardsRuntime (withDefaults collidingDefaults) collidingHarness).get? "n1"
      = some ⟨.Known "netA"⟩ ∧
    DockerOption.WithNetworks "netA" ∈
      networkOpts backwardsRuntime
        (mergedNetworks backwardsRuntime (withDefaults collidingDefaults) collidingHarness) ∧
    (mergedRegistries backwardsRuntime (withDefaults collidingDefaults) collidingHarness).get? "r1"
      = some ⟨some ⟨.Known "provider", .Null, .Null⟩⟩ :=
  have h := merged_default_entry_wins backwardsRuntime (withDefaults collidingDefaults)
    collidingHarness collidingDefaults rfl
  have hn := h.1 "n1" ⟨.Known "netA"⟩ ⟨.Known "netB"⟩ netB (by decide) rfl (by decide)
  have hr := h.2 "r1" ⟨some ⟨.Known "provider", .Null, .Null⟩⟩
    ⟨some ⟨.Known "resource", .Null, .Null⟩⟩ regB (by decide) rfl (by decide)
  ⟨hn.1, hn.2, hr.1⟩

/-! ## The skip path -/

/-- C2: when the plan decodes without error and `ShouldSkip` returns true
without an error diagnostic, `Create` makes exactly one call, `State.Set` with
the planned model and `skipped = true` (so no `VolumeCreate`, `docker.New`,
harness registry `Set` or `Setup`), the state holds that model when `Set`
reports no error, every diagnostic of the response comes from the plan, from
`ShouldSkip` or from `State.Set`, and the response has an error only if
`State.Set` reports one. -/
theorem skip_short_circuits (c : Collaborators) (rt : Runtime) (r : HarnessDockerResource)
    (req : CreateRequest)
    (hplan : HasError req.Plan.Get.1 = false)
    (hskip : (c.ShouldSkip req).1 = true)
    (hnoerr : HasError (c.ShouldSkip req).2 = false) :
    (Create c rt r req).calls
      = [Call.StateSet { req.Plan.Get.2 with Skipped := TfBool.Known true }] ∧
    (HasError (c.StateSet { req.Plan.Get.2 with Skipped := TfBool.Known true }) = false →
      (Create c rt r req).resp.State
        = some { req.Plan.Get.2 with Skipped := TfBool.Known true }) ∧
    (∀ d ∈ (Create c rt r req).resp.Diagnostics,
      d ∈ req.Plan.Get.1 ∨ d ∈ (c.ShouldSkip req).2 ∨
        d ∈ c.StateSet { req.Plan.Get.2 with Skipped := TfBool.Known true }) ∧
    HasError (Create c rt r req).resp.Diagnostics
      = HasError (c.StateSet { req.Plan.Get.2 with Skipped := TfBool.Known true }) := by
  have h0 : HasError (Append [] req.Plan.Get.1) = false := by
    rw [HasError_Append, hplan]; rfl
  have h1 : HasError (Append (Append [] req.Plan.Get.1) (c.ShouldSkip req).2) = false := by
    rw [HasError_Append, h0, hnoerr]; rfl
  have hC : Create c rt r req =
      ⟨stateSet c ⟨Append (Append [] req.Plan.Get.1) (c.ShouldSkip req).2, none⟩
          { req.Plan.Get.2 with Skipped := TfBool.Known true },
        [Call.StateSet { req.Plan.Get.2 with Skipped := TfBool.Known true }]⟩ := by
    simp [Create, h0, h1, hskip, TfBool.BoolValue, TfBool.ValueBool]
  rw [hC]
  refine ⟨rfl, ?_, ?_, ?_⟩
  · intro hs
    simp [stateSet, hs]
  · intro d hd
    simp only [stateSet, mem_Append] at hd
    rcases hd with (⟨h | h⟩ | h) | h
    · simp at h
    · exact Or.inl h
    · exact Or.inr (Or.inl h)
    · exact Or.inr (Or.inr h)
  · simp only [stateSet]
    rw [HasError_Append, h1]
    rfl

/-- C2 at the harness `h1` with a skip predicate that says skip. -/
theorem skip_short_circuits_witness :
    (Create skippingCollaborators storedRuntime noDefaults (requestOf h1)).calls
      = [Call.StateSet { h1 with Skipped := TfBool.Known true }] ∧
    (Create skippingCollaborators storedRuntime noDefaults (requestOf h1)).resp.State
      = some { h1 with Skipped := TfBool.Known true } ∧
    HasError (Create skippingCollaborators storedRuntime noDefaults (requestOf h1)).resp.Diagnostics
      = false :=
  have h := skip_short_circuits skippingCollaborators storedRuntime noDefaults (requestOf h1)
    rfl rfl rfl
  ⟨h.1, h.2.1 rfl, h.2.2.2⟩

/-! ## The option list: lemmas -/

theorem optsOfKind_append (k : OptionKind) (a b : List DockerOption) :
    optsOfKind k (a ++ b) = optsOfKind k a ++ optsOfKind k b := by
  simp [optsOfKind]

theorem authOptsFor_append (registry : String) (a b : List DockerOption) :
    authOptsFor registry (a ++ b) = authOptsFor registry a ++ authOptsFor registry b := by
  simp [authOptsFor]

theorem optsOfKind_eq_nil (k k' : OptionKind) (seg : List DockerOption)
    (hseg : ∀ o ∈ seg, o.kind = k') (hk : k' ≠ k) : optsOfKind k seg = [] := by
  simp only [optsOfKind, List.filter_eq_nil_iff, decide_eq_true_eq]
  intro o ho hko
  exact hk ((hseg o ho).symm.trans hko)

theorem optsOfKind_eq_self (k : OptionKind) (seg : List DockerOption)
    (hseg : ∀ o ∈ seg, o.kind = k) : optsOfKind k seg = seg := by
  simp only [optsOfKind, List.filter_eq_self, decide_eq_true_eq]
  exact hseg

theorem authOptsFor_eq_nil (registry : String) (k : OptionKind) (seg : List DockerOption)
    (hseg : ∀ o ∈ seg, o.kind = k) (hk : k ≠ OptionKind.Auth) : authOptsFor registry seg = [] := by
  simp only [authOptsFor, List.filter_eq_nil_iff, decide_eq_true_eq]
  intro o ho hreg
  apply hk
  rw [← hseg o ho]
  cases o <;> simp [DockerOption.authRegistry] at hreg <;> rfl

theorem kind_hostSocketOpts (r : HarnessDockerResource) :
    ∀ o ∈ hostSocketOpts r, o.kind = OptionKind.HostSocketPath := by
  intro o ho
  unfold hostSocketOpts at ho
  split at ho
  · simp at ho
  · split at ho
    · simp at ho
    · simp only [List.mem_singleton] at ho
      rw [ho]; rfl

theorem kind_resourcesOpts (c : Collaborators) (data : HarnessDockerResourceModel)
    (opts : List DockerOption) (h : resourcesOpts c data = .ok opts) :
    ∀ o ∈ opts, o.kind = OptionKind.ContainerResources := by
  intro o ho
  unfold resourcesOpts at h
  split at h
  · cases h; simp at ho
  · split at h
    · cases h
    · cases h
      simp only [List.mem_singleton] at ho
      rw [ho]; rfl

theorem kind_defaultEnvOpts (c : Collaborators) (r : HarnessDockerResource)
    (opts : List DockerOption) (h : defaultEnvOpts c r = some opts) :
    ∀ o ∈ opts, o.kind = OptionKind.Envs := by
  intro o ho
  unfold defaultEnvOpts at h
  split at h
  · cases h; simp at ho
  · split at h
    · cases h
    · cases h
      simp only [List.mem_singleton] at ho
      rw [ho]; rfl

theorem kind_envOpts (c : Collaborators) (data : HarnessDockerResourceModel)
    (opts : List DockerOption) (h : envOpts c data = some opts) :
    ∀ o ∈ opts, o.kind = OptionKind.Envs := by
  intro o ho
  unfold envOpts at h
  split at h
  · cases h
  · cases h
    simp only [List.mem_singleton] at ho
    rw [ho]; rfl

theorem kind_authOpt (registry : String) (info : DockerRegistryResourceModel) :
    ∀ o ∈ authOpt registry info, o.kind = OptionKind.Auth ∧ o.authRegistry = some registry := by
  intro o ho
  unfold authOpt at ho
  split at ho
  · simp at ho
  · split at ho <;>
    · simp only [List.mem_singleton] at ho
      rw [ho]; exact ⟨rfl, rfl⟩

theorem kind_authOpts (rt : Runtime) (registries : GoMap DockerRegistryResourceModel) :
    ∀ o ∈ authOpts rt registries, o.kind = OptionKind.Auth := by
  intro o ho
  obtain ⟨e, _, he⟩ := List.mem_flatMap.1 ho
  exact (kind_authOpt e.1 e.2 o he).1

theorem kind_mountOpts (c : Collaborators) (ms : List ContainerResourceMountModel)
    (opts : List DockerOption) (h : mountOpts c ms = .ok opts) :
    ∀ o ∈ opts, o.kind = OptionKind.Mounts := by
  induction ms generalizing opts with
  | nil =>
    cases h
    intro o ho; simp at ho
  | cons m rest ih =>
    unfold mountOpts at h
    split at h
    · cases h
    · split at h
      · cases h
      · rename_i tail htail
        cases h
        intro o ho
        rcases List.mem_cons.1 ho with ho | ho
        · rw [ho]; rfl
        · exact ih tail htail o ho

theorem kind_networkOpts (rt : Runtime) (networks : GoMap ContainerResourceModelNetwork) :
    ∀ o ∈ networkOpts rt networks, o.kind = OptionKind.Networks := by
  intro o ho
  obtain ⟨e, _, he⟩ := List.mem_map.1 ho
  rw [← he]; rfl

theorem kind_volumeOpts (data : HarnessDockerResourceModel) :
    ∀ o ∈ volumeOpts data, o.kind = OptionKind.ManagedVolumes := by
  intro o ho
  unfold volumeOpts at ho
  split at ho
  · simp at ho
  · obtain ⟨e, _, he⟩ := List.mem_map.1 ho
    rw [← he]; rfl

/-- What a run of lines 115 to 220 that reaches line 221 has computed. -/
theorem buildOpts_ok (c : Collaborators) (rt : Runtime) (r : HarnessDockerResource)
    (data : HarnessDockerResourceModel) (diags : List Diagnostic) (opts : List DockerOption)
    (data' : HarnessDockerResourceModel) (h : buildOpts c rt r data diags = .ok (opts, data')) :
    ∃ ref resOpts defEnv mOpts env,
      c.ParseReference data.Image.ValueString = .ok ref ∧
      resourcesOpts c data = .ok resOpts ∧
      defaultEnvOpts c r = some defEnv ∧
      mountOpts c (mergedMounts r data) = .ok mOpts ∧
      envOpts c data = some env ∧
      opts = [DockerOption.WithImageRef ref] ++ hostSocketOpts r ++ resOpts ++ defEnv
              ++ authOpts rt (mergedRegistries rt r data) ++ mOpts
              ++ networkOpts rt (mergedNetworks rt r data) ++ volumeOpts data ++ env ∧
      data' = dataAfterMerge rt r data := by
  unfold buildOpts at h
  split at h
  · cases h
  · rename_i ref href
    split at h
    · cases h
    · rename_i resOpts hres
      split at h
      · cases h
      · rename_i defEnv hdef
        split at h
        · cases h
        · rename_i mOpts hm
          split at h
          · cases h
          · rename_i env henv
            simp only [Except.ok.injEq, Prod.mk.injEq] at h
            exact ⟨ref, resOpts, defEnv, mOpts, env, href, hres, hdef, hm, henv, h.1.symm, h.2.symm⟩

/-! ## Registry auth -/

theorem authOptsFor_flatMap_of_not_mem (registry : String)
    (l : List (String × DockerRegistryResourceModel)) (h : registry ∉ l.map Prod.fst) :
    authOptsFor registry (l.flatMap (fun e => authOpt e.1 e.2)) = [] := by
  simp only [authOptsFor, List.filter_eq_nil_iff, decide_eq_true_eq]
  intro o ho hreg
  obtain ⟨e, he, hoe⟩ := List.mem_flatMap.1 ho
  have h2 := (kind_authOpt e.1 e.2 o hoe).2
  rw [h2] at hreg
  apply h
  rw [← Option.some.inj hreg]
  exact List.mem_map_of_mem Prod.fst he

theorem authOptsFor_authOpt_self (registry : String) (info : DockerRegistryResourceModel) :
    authOptsFor registry (authOpt registry info) = authOpt registry info := by
  simp only [authOptsFor, List.filter_eq_self, decide_eq_true_eq]
  exact fun o ho => (kind_authOpt registry info o ho).2

theorem authOptsFor_authOpt_ne (registry other : String) (info : DockerRegistryResourceModel)
    (h : other ≠ registry) : authOptsFor registry (authOpt other info) = [] := by
  simp only [authOptsFor, List.filter_eq_nil_iff, decide_eq_true_eq]
  intro o ho hreg
  rw [(kind_authOpt other info o ho).2] at hreg
  exact h (Option.some.inj hreg)

/-- Among the options of a walk over a map, those of one registry are the
options of its single entry. -/
theorem authOptsFor_flatMap_of_mem (registry : String) (info : DockerRegistryResourceModel)
    (l : List (String × DockerRegistryResourceModel)) (hl : (l.map Prod.fst).Nodup)
    (h : (registry, info) ∈ l) :
    authOptsFor registry (l.flatMap (fun e => authOpt e.1 e.2)) = authOpt registry info := by
  induction l with
  | nil => simp at h
  | cons e rest ih =>
    simp only [List.map_cons, List.nodup_cons] at hl
    rw [List.flatMap_cons, authOptsFor_append]
    rcases List.mem_cons.1 h with he | he
    · subst he
      rw [authOptsFor_authOpt_self, authOptsFor_flatMap_of_not_mem _ _ hl.1, List.append_nil]
    · have hne : e.1 ≠ registry := by
        intro heq
        exact hl.1 (heq ▸ List.mem_map_of_mem Prod.fst he)
      rw [authOptsFor_authOpt_ne _ _ _ hne, ih hl.2 he, List.nil_append]

/-- C3: in the option list `Create` builds, the auth options for a registry
address of the merged registries map are: none when its auth block is absent;
exactly one keychain option for that address when username, password and auth
are all null; otherwise exactly one static option carrying that address and
the username, password and auth string as supplied, a null field as the empty
string. -/
theorem registry_auth_resolution (c : Collaborators) (rt : Runtime) (r : HarnessDockerResource)
    (data : HarnessDockerResourceModel) (diags : List Diagnostic) (opts : List DockerOption)
    (data' : HarnessDockerResourceModel) (registry : String) (info : DockerRegistryResourceModel)
    (hbuild : buildOpts c rt r data diags = .ok (opts, data'))
    (hinfo : (mergedRegistries rt r data).get? registry = some info) :
    authOptsFor registry opts =
      match info.Auth with
      | none => []
      | some a =>
        if a.Username = TfString.Null ∧ a.Password = TfString.Null ∧ a.Auth = TfString.Null then
          [DockerOption.WithAuthFromKeychain registry]
        else
          [DockerOption.WithAuthFromStatic registry a.Username.ValueString a.Password.ValueString
            a.Auth.ValueString] := by
  obtain ⟨ref, resOpts, defEnv, mOpts, env, _, hres, hdef, hm, henv, hopts, _⟩ :=
    buildOpts_ok c rt r data diags opts data' hbuild
  have hmem : (registry, info) ∈ rt.registries.visit (mergedRegistries rt r data).entries :=
    (rt.registries.perm _).mem_iff.2 ((mem_entries_iff _ registry info).2 hinfo)
  have hnd : ((rt.registries.visit (mergedRegistries rt r data).entries).map Prod.fst).Nodup :=
    (List.Perm.nodup_iff ((rt.registries.perm _).map Prod.fst)).2 (mergedRegistries rt r data).nodup
  have hauth : authOptsFor registry (authOpts rt (mergedRegistries rt r data))
      = authOpt registry info := authOptsFor_flatMap_of_mem registry info _ hnd hmem
  rw [hopts]
  simp only [authOptsFor_append]
  rw [authOptsFor_eq_nil registry OptionKind.ImageRef [DockerOption.WithImageRef ref]
        (by intro o ho; simp only [List.mem_singleton] at ho; rw [ho]; rfl) (by decide),
    authOptsFor_eq_nil registry _ _ (kind_hostSocketOpts r) (by decide),
    authOptsFor_eq_nil registry _ _ (kind_resourcesOpts c data resOpts hres) (by decide),
    authOptsFor_eq_nil registry _ _ (kind_defaultEnvOpts c r defEnv hdef) (by decide),
    authOptsFor_eq_nil registry _ _ (kind_mountOpts c _ mOpts hm) (by decide),
    authOptsFor_eq_nil registry _ _ (kind_networkOpts rt _) (by decide),
    authOptsFor_eq_nil registry _ _ (kind_volumeOpts data) (by decide),
    authOptsFor_eq_nil registry _ _ (kind_envOpts c data env henv) (by decide),
    hauth]
  simp only [List.nil_append, List.append_nil]
  unfold authOpt
  cases info.Auth with
  | none => rfl
  | some a =>
    obtain ⟨u, p, s⟩ := a
    cases u <;> cases p <;> cases s <;> simp [TfString.IsNull]

/-- C3 at three registries: a static option for `ghcr.io`, a keychain option
for `cgr.dev`, nothing for `docker.io`. -/
theorem registry_auth_resolution_witness :
    authOptsFor "ghcr.io" authHarnessOpts
      = [DockerOption.WithAuthFromStatic "ghcr.io" "user" "" "dXNlcg=="] ∧
    authOptsFor "cgr.dev" authHarnessOpts = [DockerOption.WithAuthFromKeychain "cgr.dev"] ∧
    authOptsFor "docker.io" authHarnessOpts = [] :=
  ⟨registry_auth_resolution sampleCollaborators backwardsRuntime noDefaults authHarness []
      authHarnessOpts authHarness "ghcr.io" ⟨some ⟨.Known "user", .Null, .Known "dXNlcg=="⟩⟩
      rfl rfl,
    registry_auth_resolution sampleCollaborators backwardsRuntime noDefaults authHarness []
      authHarnessOpts authHarness "cgr.dev" ⟨some ⟨.Null, .Null, .Null⟩⟩ rfl rfl,
    registry_auth_resolution sampleCollaborators backwardsRuntime noDefaults authHarness []
      authHarnessOpts authHarness "docker.io" ⟨none⟩ rfl rfl⟩

/-! ## Mounts -/

theorem mergedMounts_eq (r : HarnessDockerResource) (data : HarnessDockerResourceModel) :
    mergedMounts r data =
      data.Mounts.getD [] ++ ((dockerDefaults r).map (fun cfg => cfg.Mounts)).getD [] := by
  unfold mergedMounts
  cases data.Mounts <;> cases dockerDefaults r <;> simp

theorem mountOpts_of_abs (c : Collaborators) (abs : String → String)
    (ms : List ContainerResourceMountModel)
    (habs : ∀ m ∈ ms, c.Abs m.Source.ValueString = .ok (abs m.Source.ValueString)) :
    mountOpts c ms = .ok (ms.map (fun m =>
      DockerOption.WithMounts
        ⟨MountType.TypeBind, abs m.Source.ValueString, m.Destination.ValueString⟩)) := by
  induction ms with
  | nil => rfl
  | cons m rest ih =>
    have hm := habs m (List.mem_cons_self m rest)
    have hrest := ih (fun x hx => habs x (List.mem_cons_of_mem m hx))
    simp only [mountOpts, hm, hrest, List.map_cons]

/-- C4: when every mount source can be made absolute (`abs` is its absolute
form), the mount loop of `Create` succeeds, and in any option list `Create`
builds the mount options are, in order, one per element of the resource-level
mounts followed by one per element of the provider-default Docker mounts (none
when there are no Docker defaults), each of type bind, with the destination
verbatim and the absolute form of the source. -/
theorem mount_options_in_order (c : Collaborators) (rt : Runtime) (r : HarnessDockerResource)
    (data : HarnessDockerResourceModel) (diags : List Diagnostic) (abs : String → String)
    (habs : ∀ m ∈ data.Mounts.getD [] ++ ((dockerDefaults r).map (fun cfg => cfg.Mounts)).getD [],
      c.Abs m.Source.ValueString = .ok (abs m.Source.ValueString)) :
    mountOpts c (mergedMounts r data) =
      .ok ((data.Mounts.getD [] ++ ((dockerDefaults r).map (fun cfg => cfg.Mounts)).getD []).map
        (fun m => DockerOption.WithMounts
          ⟨MountType.TypeBind, abs m.Source.ValueString, m.Destination.ValueString⟩)) ∧
    ∀ opts data', buildOpts c rt r data diags = .ok (opts, data') →
      optsOfKind OptionKind.Mounts opts =
        (data.Mounts.getD [] ++ ((dockerDefaults r).map (fun cfg => cfg.Mounts)).getD []).map
          (fun m => DockerOption.WithMounts
            ⟨MountType.TypeBind, abs m.Source.ValueString, m.Destination.ValueString⟩) := by
  have hloop := mountOpts_of_abs c abs (mergedMounts r data) (by rw [mergedMounts_eq]; exact habs)
  rw [mergedMounts_eq] at hloop
  refine ⟨by rw [mergedMounts_eq]; exact hloop, ?_⟩
  intro opts data' hbuild
  obtain ⟨ref, resOpts, defEnv, mOpts, env, _, hres, hdef, hm, henv, hopts, _⟩ :=
    buildOpts_ok c rt r data diags opts data' hbuild
  have hm' := hm
  rw [mergedMounts_eq, hloop] at hm'
  rw [hopts]
  simp only [optsOfKind_append]
  rw [optsOfKind_eq_nil OptionKind.Mounts OptionKind.ImageRef [DockerOption.WithImageRef ref]
        (by intro o ho; simp only [List.mem_singleton] at ho; rw [ho]; rfl) (by decide),
    optsOfKind_eq_nil _ _ _ (kind_hostSocketOpts r) (by decide),
    optsOfKind_eq_nil _ _ _ (kind_resourcesOpts c data resOpts hres) (by decide),
    optsOfKind_eq_nil _ _ _ (kind_defaultEnvOpts c r defEnv hdef) (by decide),
    optsOfKind_eq_nil _ _ _ (kind_authOpts rt _) (by decide),
    optsOfKind_eq_self _ _ (kind_mountOpts c _ mOpts hm),
    optsOfKind_eq_nil _ _ _ (kind_networkOpts rt _) (by decide),
    optsOfKind_eq_nil _ _ _ (kind_volumeOpts data) (by decide),
    optsOfKind_eq_nil _ _ _ (kind_envOpts c data env henv) (by decide)]
  simp only [List.nil_append, List.append_nil]
  exact (Except.ok.inj hm').symm

/-- C4 at the spec scenario: the harness `h1` with the mount `/a` to `/b` and
no provider defaults gets exactly one mount option, bind `/a` to `/b`. -/
theorem mount_options_in_order_witness :
    buildOpts sampleCollaborators storedRuntime noDefaults h1 [] = .ok (h1Opts, h1) ∧
    optsOfKind OptionKind.Mounts h1Opts
      = [DockerOption.WithMounts ⟨MountType.TypeBind, "/a", "/b"⟩] :=
  ⟨rfl, (mount_options_in_order sampleCollaborators storedRuntime noDefaults h1 [] id
    (by
      intro m hm
      have hm' : m ∈ [(⟨.Known "/a", .Known "/b"⟩ : ContainerResourceMountModel)] := hm
      rw [List.mem_singleton] at hm'
      subst hm'
      rfl)).2 h1Opts h1 rfl⟩

/-! ## Environment options -/

/-- C5, as the claim has it, fails: with provider-default envs `A=1` and
resource-level envs `B=2`, both converting without error, the option list has
the provider-default env option before the resource-level one, and not after
it. -/
theorem env_option_order_counterexample :
    buildOpts sampleCollaborators storedRuntime (withDefaults envDefaults) envHarness []
      = .ok (envHarnessOpts, envHarness) ∧
    (sampleCollaborators.ElementsAs envDefaults.Envs) = ([], envA) ∧
    (sampleCollaborators.ElementsAs envHarness.Envs) = ([], envB) ∧
    optsOfKind OptionKind.Envs envHarnessOpts
      = [DockerOption.WithEnvs envA, DockerOption.WithEnvs envB] ∧
    ¬ List.Sublist [DockerOption.WithEnvs envB, DockerOption.WithEnvs envA] envHarnessOpts :=
  ⟨rfl, rfl, rfl, by decide, by decide⟩

/-- C5, amended: whenever provider-default Docker config is present and
`Create` builds an option list, both env maps have converted without error and
the list contains exactly two env options, the one built from the
provider-default envs first and the one built from the resource-level envs
after it. -/
theorem default_env_option_first (c : Collaborators) (rt : Runtime) (r : HarnessDockerResource)
    (data : HarnessDockerResourceModel) (diags : List Diagnostic) (opts : List DockerOption)
    (data' : HarnessDockerResourceModel) (cfg : ProviderHarnessDockerModel)
    (hcfg : dockerDefaults r = some cfg)
    (hbuild : buildOpts c rt r data diags = .ok (opts, data')) :
    HasError (c.ElementsAs cfg.Envs).1 = false ∧
    HasError (c.ElementsAs data.Envs).1 = false ∧
    optsOfKind OptionKind.Envs opts =
      [DockerOption.WithEnvs (c.ElementsAs cfg.Envs).2,
        DockerOption.WithEnvs (c.ElementsAs data.Envs).2] ∧
    List.Sublist [DockerOption.WithEnvs (c.ElementsAs cfg.Envs).2,
        DockerOption.WithEnvs (c.ElementsAs data.Envs).2] opts := by
  obtain ⟨ref, resOpts, defEnv, mOpts, env, _, hres, hdef, hm, henv, hopts, _⟩ :=
    buildOpts_ok c rt r data diags opts data' hbuild
  have hd : HasError (c.ElementsAs cfg.Envs).1 = false ∧
      defEnv = [DockerOption.WithEnvs (c.ElementsAs cfg.Envs).2] := by
    unfold defaultEnvOpts at hdef
    rw [hcfg] at hdef
    by_cases he : HasError (c.ElementsAs cfg.Envs).1 = true
    · simp [he] at hdef
    · simp only [he] at hdef
      exact ⟨by simpa using he, (Option.some.inj hdef).symm⟩
  have hr : HasError (c.ElementsAs data.Envs).1 = false ∧
      env = [DockerOption.WithEnvs (c.ElementsAs data.Envs).2] := by
    unfold envOpts at henv
    by_cases he : HasError (c.ElementsAs data.Envs).1 = true
    · simp [he] at henv
    · simp only [he] at henv
      exact ⟨by simpa using he, (Option.some.inj henv).symm⟩
  have hfilter : optsOfKind OptionKind.Envs opts =
      [DockerOption.WithEnvs (c.ElementsAs cfg.Envs).2,
        DockerOption.WithEnvs (c.ElementsAs data.Envs).2] := by
    rw [hopts]
    simp only [optsOfKind_append]
    rw [optsOfKind_eq_nil OptionKind.Envs OptionKind.ImageRef [DockerOption.WithImageRef ref]
          (by intro o ho; simp only [List.mem_singleton] at ho; rw [ho]; rfl) (by decide),
      optsOfKind_eq_nil _ _ _ (kind_hostSocketOpts r) (by decide),
      optsOfKind_eq_nil _ _ _ (kind_resourcesOpts c data resOpts hres) (by decide),
      optsOfKind_eq_self _ _ (kind_defaultEnvOpts c r defEnv hdef),
      optsOfKind_eq_nil _ _ _ (kind_authOpts rt _) (by decide),
      optsOfKind_eq_nil _ _ _ (kind_mountOpts c _ mOpts hm) (by decide),
      optsOfKind_eq_nil _ _ _ (kind_networkOpts rt _) (by decide),
      optsOfKind_eq_nil _ _ _ (kind_volumeOpts data) (by decide),
      optsOfKind_eq_self _ _ (kind_envOpts c data env henv), hd.2, hr.2]
    rfl
  refine ⟨hd.1, hr.1, hfilter, ?_⟩
  rw [← hfilter]
  exact List.filter_sublist opts

/-- C5, amended, at provider-default envs `A=1` and resource-level envs `B=2`. -/
theorem default_env_option_first_witness :
    optsOfKind OptionKind.Envs envHarnessOpts
      = [DockerOption.WithEnvs envA, DockerOption.WithEnvs envB] ∧
    List.Sublist [DockerOption.WithEnvs envA, DockerOption.WithEnvs envB] envHarnessOpts :=
  (default_env_option_first sampleCollaborators storedRuntime (withDefaults envDefaults)
    envHarness [] envHarnessOpts envHarness envDefaults rfl rfl).2.2

/-! ## Determinism -/

/-- Two maps with the same lookups have the same entries, up to their order. -/
theorem entries_perm_of_get? {V : Type} (m1 m2 : GoMap V) (h : ∀ k, m1.get? k = m2.get? k) :
    m1.entries.Perm m2.entries := by
  refine (List.perm_ext_iff_of_nodup (List.Nodup.of_map Prod.fst m1.nodup)
    (List.Nodup.of_map Prod.fst m2.nodup)).2 ?_
  rintro ⟨k, v⟩
  rw [mem_entries_iff, mem_entries_iff, h]

theorem mergedNetworks_get? (rt1 rt2 : Runtime) (r : HarnessDockerResource)
    (data : HarnessDockerResourceModel) (k : String) :
    (mergedNetworks rt1 r data).get? k = (mergedNetworks rt2 r data).get? k := by
  unfold mergedNetworks
  cases dockerDefaults r with
  | none => rfl
  | some cfg => simp only [get?_assignAll]

theorem mergedRegistries_get? (rt1 rt2 : Runtime) (r : HarnessDockerResource)
    (data : HarnessDockerResourceModel) (k : String) :
    (mergedRegistries rt1 r data).get? k = (mergedRegistries rt2 r data).get? k := by
  unfold mergedRegistries
  cases dockerDefaults r with
  | none => rfl
  | some cfg => simp only [get?_assignAll]

theorem authOpts_perm (rt1 rt2 : Runtime) (r : HarnessDockerResource)
    (data : HarnessDockerResourceModel) :
    (authOpts rt1 (mergedRegistries rt1 r data)).Perm (authOpts rt2 (mergedRegistries rt2 r data)) := by
  unfold authOpts
  apply List.Perm.flatMap_right
  exact ((rt1.registries.perm _).trans
    (entries_perm_of_get? _ _ (mergedRegistries_get? rt1 rt2 r data))).trans
    (rt2.registries.perm _).symm

theorem networkOpts_perm (rt1 rt2 : Runtime) (r : HarnessDockerResource)
    (data : HarnessDockerResourceModel) :
    (networkOpts rt1 (mergedNetworks rt1 r data)).Perm
      (networkOpts rt2 (mergedNetworks rt2 r data)) := by
  unfold networkOpts
  apply List.Perm.map
  exact ((rt1.networks.perm _).trans
    (entries_perm_of_get? _ _ (mergedNetworks_get? rt1 rt2 r data))).trans
    (rt2.networks.perm _).symm

/-- The early returns of lines 115 to 220 do not depend on the runtime. -/
theorem buildOpts_error (c : Collaborators) (rt1 rt2 : Runtime) (r : HarnessDockerResource)
    (data : HarnessDockerResourceModel) (diags ds : List Diagnostic)
    (h : buildOpts c rt1 r data diags = .error ds) : buildOpts c rt2 r data diags = .error ds := by
  unfold buildOpts at h ⊢
  cases h1 : c.ParseReference data.Image.ValueString with
  | error e => simpa only [h1] using h
  | ok ref =>
    cases h2 : resourcesOpts c data with
    | error e => simpa only [h1, h2] using h
    | ok resOpts =>
      cases h3 : defaultEnvOpts c r with
      | none => simpa only [h1, h2, h3] using h
      | some defEnv =>
        cases h4 : mountOpts c (mergedMounts r data) with
        | error e => simpa only [h1, h2, h3, h4] using h
        | ok mOpts =>
          cases h5 : envOpts c data with
          | none => simpa only [h1, h2, h3, h4, h5] using h
          | some env =>
            simp only [h1, h2, h3, h4, h5] at h
            cases h

theorem buildOpts_eq_ok (c : Collaborators) (rt : Runtime) (r : HarnessDockerResource)
    (data : HarnessDockerResourceModel) (diags : List Diagnostic) (ref : Reference)
    (resOpts defEnv mOpts env : List DockerOption)
    (h1 : c.ParseReference data.Image.ValueString = .ok ref)
    (h2 : resourcesOpts c data = .ok resOpts) (h3 : defaultEnvOpts c r = some defEnv)
    (h4 : mountOpts c (mergedMounts r data) = .ok mOpts) (h5 : envOpts c data = some env) :
    buildOpts c rt r data diags =
      .ok ([DockerOption.WithImageRef ref] ++ hostSocketOpts r ++ resOpts ++ defEnv
              ++ authOpts rt (mergedRegistries rt r data) ++ mOpts
              ++ networkOpts rt (mergedNetworks rt r data) ++ volumeOpts data ++ env,
           dataAfterMerge rt r data) := by
  unfold buildOpts
  simp only [h1, h2, h3, h4, h5]

/-- C6, as the claim has it, fails: on the harness with the networks
`a -> netA` and `b -> netB`, a runtime that walks the map as stored and one
that walks it backwards yield different option sequences. -/
theorem option_sequence_counterexample :
    buildOpts sampleCollaborators storedRuntime noDefaults twoNetworksHarness [] =
      .ok ([.WithImageRef ⟨"repo/img:tag"⟩, .WithMounts ⟨.TypeBind, "/a", "/b"⟩,
            .WithNetworks "netA", .WithNetworks "netB", .WithEnvs GoMap.make],
           twoNetworksHarness) ∧
    buildOpts sampleCollaborators backwardsRuntime noDefaults twoNetworksHarness [] =
      .ok ([.WithImageRef ⟨"repo/img:tag"⟩, .WithMounts ⟨.TypeBind, "/a", "/b"⟩,
            .WithNetworks "netB", .WithNetworks "netA", .WithEnvs GoMap.make],
           twoNetworksHarness) ∧
    ([.WithImageRef ⟨"repo/img:tag"⟩, .WithMounts ⟨.TypeBind, "/a", "/b"⟩,
        .WithNetworks "netA", .WithNetworks "netB", .WithEnvs GoMap.make] : List DockerOption) ≠
      [.WithImageRef ⟨"repo/img:tag"⟩, .WithMounts ⟨.TypeBind, "/a", "/b"⟩,
        .WithNetworks "netB", .WithNetworks "netA", .WithEnvs GoMap.make] :=
  ⟨rfl, rfl, by decide⟩

/-- C6, amended: the option sequence `Create` derives is a function of the
provider defaults, the harness model and the order in which the runtime walks
the maps.  Two runs on identical inputs under any two runtimes stop at the
same early return with the same diagnostics, or both build a sequence, and the
two sequences are the same but for the order of the registry-auth options
among themselves and of the network options among themselves. -/
theorem option_sequence_up_to_map_order (c : Collaborators) (rt1 rt2 : Runtime)
    (r : HarnessDockerResource) (data : HarnessDockerResourceModel) (diags : List Diagnostic) :
    (∀ ds, buildOpts c rt1 r data diags = .error ds → buildOpts c rt2 r data diags = .error ds) ∧
    (∀ opts1 data1, buildOpts c rt1 r data diags = .ok (opts1, data1) →
      ∃ opts2 data2 pre auth1 auth2 mid net1 net2 post,
        buildOpts c rt2 r data diags = .ok (opts2, data2) ∧
        opts1 = pre ++ auth1 ++ mid ++ net1 ++ post ∧
        opts2 = pre ++ auth2 ++ mid ++ net2 ++ post ∧
        auth1.Perm auth2 ∧ net1.Perm net2 ∧
        (∀ o ∈ auth1, o.kind = OptionKind.Auth) ∧
        (∀ o ∈ net1, o.kind = OptionKind.Networks)) := by
  refine ⟨fun ds h => buildOpts_error c rt1 rt2 r data diags ds h, ?_⟩
  intro opts1 data1 hbuild
  obtain ⟨ref, resOpts, defEnv, mOpts, env, h1, h2, h3, h4, h5, hopts, _⟩ :=
    buildOpts_ok c rt1 r data diags opts1 data1 hbuild
  refine ⟨_, _, [DockerOption.WithImageRef ref] ++ hostSocketOpts r ++ resOpts ++ defEnv,
    authOpts rt1 (mergedRegistries rt1 r data), authOpts rt2 (mergedRegistries rt2 r data), mOpts,
    networkOpts rt1 (mergedNetworks rt1 r data), networkOpts rt2 (mergedNetworks rt2 r data),
    volumeOpts data ++ env,
    buildOpts_eq_ok c rt2 r data diags ref resOpts defEnv mOpts env h1 h2 h3 h4 h5, ?_, ?_,
    authOpts_perm rt1 rt2 r data, networkOpts_perm rt1 rt2 r data, kind_authOpts rt1 _,
    kind_networkOpts rt1 _⟩
  · rw [hopts]; simp only [List.append_assoc]
  · simp only [List.append_assoc]

/-- C6, amended, at the harness with two networks: the backwards runtime
builds the sequence of the stored runtime with the two network options
swapped. -/
theorem option_sequence_up_to_map_order_witness :
    ∃ opts2 data2 pre auth1 auth2 mid net1 net2 post,
      buildOpts sampleCollaborators backwardsRuntime noDefaults twoNetworksHarness []
        = .ok (opts2, data2) ∧
      ([.WithImageRef ⟨"repo/img:tag"⟩, .WithMounts ⟨.TypeBind, "/a", "/b"⟩,
          .WithNetworks "netA", .WithNetworks "netB", .WithEnvs GoMap.make] : List DockerOption)
        = pre ++ auth1 ++ mid ++ net1 ++ post ∧
      opts2 = pre ++ auth2 ++ mid ++ net2 ++ post ∧
      auth1.Perm auth2 ∧ net1.Perm net2 ∧
      (∀ o ∈ auth1, o.kind = OptionKind.Auth) ∧
      (∀ o ∈ net1, o.kind = OptionKind.Networks) :=
  (option_sequence_up_to_map_order sampleCollaborators storedRuntime backwardsRuntime noDefaults
    twoNetworksHarness []).2 _ twoNetworksHarness rfl

/-! ## Early returns -/

/-- C7 on the code: when the resource-level envs hold a null element, or the
provider-default envs do, `ElementsAs` reports an error and `Create` returns
at the bare `return` of line 218, respectively line 167: nothing is written
to the state, no call is made, and the response carries no diagnostic at
all. -/
theorem env_conversion_failure_is_silent :
    HasError (sampleCollaborators.ElementsAs nullEnvHarness.Envs).1 = true ∧
    Create sampleCollaborators storedRuntime noDefaults (requestOf nullEnvHarness)
      = ⟨⟨[], none⟩, []⟩ ∧
    HasError (sampleCollaborators.ElementsAs nullEnvDefaults.Envs).1 = true ∧
    Create sampleCollaborators storedRuntime (withDefaults nullEnvDefaults) (requestOf h1)
      = ⟨⟨[], none⟩, []⟩ := by
  decide

/-- C8 on the code: with a mount source that cannot be made absolute and
provider-default envs that do not convert, `Create` returns at the bare
`return` of line 167, before the mount loop: no partial effect, but no error
diagnostic either. -/
theorem invalid_mount_behind_silent_return :
    lostCwdCollaborators.Abs "data" = .error "getwd: no such file or directory" ∧
    relativeMountHarness.Mounts = some [⟨.Known "data", .Known "/b"⟩] ∧
    (lostCwdCollaborators.ShouldSkip (requestOf relativeMountHarness)).1 = false ∧
    Create lostCwdCollaborators storedRuntime (withDefaults nullEnvDefaults)
        (requestOf relativeMountHarness) = ⟨⟨[], none⟩, []⟩ ∧
    HasError (Create lostCwdCollaborators storedRuntime (withDefaults nullEnvDefaults)
        (requestOf relativeMountHarness)).resp.Diagnostics = false :=
  ⟨rfl, rfl, rfl, by decide, by decide⟩

/-- C10 on the code: with the provider-default network `n2 -> netA` and a
plan whose networks map is `n1 -> netB`, a successful non-skipped `Create`
writes to the state a model whose networks map is `n1 -> netB, n2 -> netA`:
the provider default was assigned into the map of the model itself. -/
theorem state_holds_provider_networks :
    (requestOf networkHarness).Plan.Get.2.Networks = some netB ∧
    HasError (Create sampleCollaborators storedRuntime (withDefaults otherNetworkDefaults)
      (requestOf networkHarness)).resp.Diagnostics = false ∧
    (Create sampleCollaborators storedRuntime (withDefaults otherNetworkDefaults)
      (requestOf networkHarness)).resp.State
      = some { networkHarness with Skipped := .Known false, Networks := some bothNetworks } ∧
    bothNetworks.get? "n2" = some ⟨.Known "netA"⟩ ∧
    netB.get? "n2" = none := by
  decide

/-! ## The config volume -/

/-- Whether lines 115 to 220 reach line 221, and with what, does not depend
on the diagnostics the response already holds. -/
theorem buildOpts_diags (c : Collaborators) (rt : Runtime) (r : HarnessDockerResource)
    (data : HarnessDockerResourceModel) (ds1 ds2 : List Diagnostic) (opts : List DockerOption)
    (data' : HarnessDockerResourceModel) (h : buildOpts c rt r data ds1 = .ok (opts, data')) :
    buildOpts c rt r data ds2 = .ok (opts, data') := by
  obtain ⟨ref, resOpts, defEnv, mOpts, env, h1, h2, h3, h4, h5, hopts, hdata⟩ :=
    buildOpts_ok c rt r data ds1 opts data' h
  rw [hopts, hdata]
  exact buildOpts_eq_ok c rt r data ds2 ref resOpts defEnv mOpts env h1 h2 h3 h4 h5

/-- C9: a non-skipped `Create` that passes input validation (the plan decodes,
the logger initialises, lines 115 to 220 build the option list `opts`) calls
`VolumeCreate` with the name `id ++ "-config"` first; the calls it makes are an
initial part of: `VolumeCreate`, `docker.New`, harness registry `Set`, `Setup`,
`State.Set`, where the harness gets `opts` followed by the config-volume
option with that same name as its last option.  If `VolumeCreate` fails,
`VolumeCreate` is the only call, the response has an error and no state is
written; if it succeeds, `docker.New` is called next. -/
theorem config_volume_first (c : Collaborators) (rt : Runtime) (r : HarnessDockerResource)
    (req : CreateRequest) (opts : List DockerOption) (data' : HarnessDockerResourceModel)
    (hplan : HasError req.Plan.Get.1 = false)
    (hskip : (c.ShouldSkip req).1 = false)
    (hskipd : HasError (c.ShouldSkip req).2 = false)
    (hlog : c.Logger req.Plan.Get.2.Inventory req.Plan.Get.2.Id.ValueString
      req.Plan.Get.2.Name.ValueString = .ok ())
    (hbuild : buildOpts c rt r { req.Plan.Get.2 with Skipped := TfBool.Known false } []
      = .ok (opts, data')) :
    (Create c rt r req).calls.head?
      = some (Call.VolumeCreate (req.Plan.Get.2.Id.ValueString ++ "-config") c.DefaultLabels) ∧
    (∃ rest, (Create c rt r req).calls ++ rest =
      [Call.VolumeCreate (req.Plan.Get.2.Id.ValueString ++ "-config") c.DefaultLabels,
        Call.New req.Plan.Get.2.Id.ValueString
          (opts ++ [DockerOption.WithConfigVolumeName
            (req.Plan.Get.2.Id.ValueString ++ "-config")]),
        Call.HarnessesSet req.Plan.Get.2.Id.ValueString
          (opts ++ [DockerOption.WithConfigVolumeName
            (req.Plan.Get.2.Id.ValueString ++ "-config")]),
        Call.Setup req.Plan.Get.2.Id.ValueString
          (opts ++ [DockerOption.WithConfigVolumeName
            (req.Plan.Get.2.Id.ValueString ++ "-config")]),
        Call.StateSet data']) ∧
    (∀ err, c.VolumeCreate (req.Plan.Get.2.Id.ValueString ++ "-config") = .error err →
      (Create c rt r req).calls
        = [Call.VolumeCreate (req.Plan.Get.2.Id.ValueString ++ "-config") c.DefaultLabels] ∧
      HasError (Create c rt r req).resp.Diagnostics = true ∧
      (Create c rt r req).resp.State = none) ∧
    (c.VolumeCreate (req.Plan.Get.2.Id.ValueString ++ "-config") = .ok () →
      ∃ later, (Create c rt r req).calls =
        Call.VolumeCreate (req.Plan.Get.2.Id.ValueString ++ "-config") c.DefaultLabels ::
        Call.New req.Plan.Get.2.Id.ValueString
          (opts ++ [DockerOption.WithConfigVolumeName
            (req.Plan.Get.2.Id.ValueString ++ "-config")]) :: later) := by
  have h0 : HasError (Append [] req.Plan.Get.1) = false := by
    rw [HasError_Append, hplan]; rfl
  have h1 : HasError (Append (Append [] req.Plan.Get.1) (c.ShouldSkip req).2) = false := by
    rw [HasError_Append, h0, hskipd]; rfl
  have hid : data'.Id = req.Plan.Get.2.Id := by
    obtain ⟨_, _, _, _, _, _, _, _, _, _, _, hdata⟩ := buildOpts_ok c rt r _ _ opts data' hbuild
    rw [hdata]; rfl
  have hC : Create c rt r req =
      provision c opts data'
        (Append (Append (Append [] req.Plan.Get.1) (c.ShouldSkip req).2)
          (c.TimeoutsCreate req.Plan.Get.2.Timeouts)) := by
    have hb := buildOpts_diags c rt r _ []
      (Append (Append (Append [] req.Plan.Get.1) (c.ShouldSkip req).2)
        (c.TimeoutsCreate req.Plan.Get.2.Timeouts)) opts data' hbuild
    simp only [Create, h0, h1, hskip, TfBool.BoolValue, TfBool.ValueBool, hlog, hb]
    simp
  rw [hC]
  unfold provision
  simp only [hid]
  cases hv : c.VolumeCreate (req.Plan.Get.2.Id.ValueString ++ "-config") with
  | error e =>
    refine ⟨rfl, ⟨_, rfl⟩, ?_, ?_⟩
    · intro err _
      exact ⟨rfl, HasError_AddError _ _ _, rfl⟩
    · intro hh; cases hh
  | ok u =>
    cases hn : c.New req.Plan.Get.2.Id.ValueString
        (opts ++ [DockerOption.WithConfigVolumeName
          (req.Plan.Get.2.Id.ValueString ++ "-config")]) with
    | error e =>
      refine ⟨rfl, ⟨_, rfl⟩, ?_, ?_⟩
      · intro err hh; cases hh
      · intro _; exact ⟨_, rfl⟩
    | ok u2 =>
      cases hs : c.Setup req.Plan.Get.2.Id.ValueString
          (opts ++ [DockerOption.WithConfigVolumeName
            (req.Plan.Get.2.Id.ValueString ++ "-config")]) with
      | error e =>
        refine ⟨rfl, ⟨_, rfl⟩, ?_, ?_⟩
        · intro err hh; cases hh
        · intro _; exact ⟨_, rfl⟩
      | ok u3 =>
        refine ⟨rfl, ⟨[], rfl⟩, ?_, ?_⟩
        · intro err hh; cases hh
        · intro _; exact ⟨_, rfl⟩

/-- C9 at the harness `h1`: the volume `h1-config` is created first, and when
the engine refuses it, that call is the only one. -/
theorem config_volume_first_witness :
    (Create sampleCollaborators storedRuntime noDefaults (requestOf h1)).calls.head?
      = some (Call.VolumeCreate "h1-config" [("dev.chainguard.imagetest", "true")]) ∧
    (Create noVolumeCollaborators storedRuntime noDefaults (requestOf h1)).calls
      = [Call.VolumeCreate "h1-config" [("dev.chainguard.imagetest", "true")]] ∧
    HasError (Create noVolumeCollaborators storedRuntime noDefaults
      (requestOf h1)).resp.Diagnostics = true ∧
    (Create noVolumeCollaborators storedRuntime noDefaults (requestOf h1)).resp.State = none :=
  ⟨(config_volume_first sampleCollaborators storedRuntime noDefaults (requestOf h1) h1Opts
      { h1 with Skipped := TfBool.Known false } rfl rfl rfl rfl rfl).1,
    (config_volume_first noVolumeCollaborators storedRuntime noDefaults (requestOf h1) h1Opts
      { h1 with Skipped := TfBool.Known false } rfl rfl rfl rfl rfl).2.2.1
      "no space left on device" rfl⟩

/-! ## Validation failures -/

theorem buildOpts_failure (c : Collaborators) (rt : Runtime) (r : HarnessDockerResource)
    (data : HarnessDockerResourceModel) (diags : List Diagnostic)
    (hfail : (∃ err, c.ParseReference data.Image.ValueString = .error err) ∨
      (∃ err, resourcesOpts c data = .error err) ∨
      (∃ err, mountOpts c (mergedMounts r data) = .error err)) :
    ∃ ds, buildOpts c rt r data diags = .error ds ∧
      (defaultEnvOpts c r ≠ none → HasError ds = true) := by
  unfold buildOpts
  cases h1 : c.ParseReference data.Image.ValueString with
  | error e => exact ⟨_, rfl, fun _ => HasError_AddError _ _ _⟩
  | ok ref =>
    cases h2 : resourcesOpts c data with
    | error e => exact ⟨_, rfl, fun _ => HasError_AddError _ _ _⟩
    | ok resOpts =>
      cases h3 : defaultEnvOpts c r with
      | none => exact ⟨_, rfl, fun hne => absurd rfl hne⟩
      | some defEnv =>
        cases h4 : mountOpts c (mergedMounts r data) with
        | error e => exact ⟨_, rfl, fun _ => HasError_AddError _ _ _⟩
        | ok mOpts =>
          rcases hfail with ⟨err, hf⟩ | ⟨err, hf⟩ | ⟨err, hf⟩
          · rw [h1] at hf; cases hf
          · rw [h2] at hf; cases hf
          · rw [h4] at hf; cases hf

/-- In a non-skipped `Create`, when the image reference does not parse, or
`ParseResources` fails, or a mount source cannot be made absolute, no call is
made and no state is written; and the response has an error unless the
provider-default envs take the bare `return` of line 167. -/
theorem validation_failure_has_no_effect (c : Collaborators) (rt : Runtime)
    (r : HarnessDockerResource) (req : CreateRequest)
    (hplan : HasError req.Plan.Get.1 = false)
    (hskip : (c.ShouldSkip req).1 = false)
    (hskipd : HasError (c.ShouldSkip req).2 = false)
    (hfail : (∃ err, c.ParseReference req.Plan.Get.2.Image.ValueString = .error err) ∨
      (∃ err, resourcesOpts c { req.Plan.Get.2 with Skipped := TfBool.Known false } = .error err) ∨
      (∃ err, mountOpts c (mergedMounts r { req.Plan.Get.2 with Skipped := TfBool.Known false })
        = .error err)) :
    (Create c rt r req).calls = [] ∧
    (Create c rt r req).resp.State = none ∧
    (defaultEnvOpts c r ≠ none → HasError (Create c rt r req).resp.Diagnostics = true) := by
  have h0 : HasError (Append [] req.Plan.Get.1) = false := by
    rw [HasError_Append, hplan]; rfl
  have h1 : HasError (Append (Append [] req.Plan.Get.1) (c.ShouldSkip req).2) = false := by
    rw [HasError_Append, h0, hskipd]; rfl
  obtain ⟨ds, hds, herr⟩ := buildOpts_failure c rt r
    { req.Plan.Get.2 with Skipped := TfBool.Known false }
    (Append (Append (Append [] req.Plan.Get.1) (c.ShouldSkip req).2)
      (c.TimeoutsCreate req.Plan.Get.2.Timeouts)) hfail
  cases hl : c.Logger req.Plan.Get.2.Inventory req.Plan.Get.2.Id.ValueString
      req.Plan.Get.2.Name.ValueString with
  | error e =>
    have hC : Create c rt r req = ⟨⟨AddError (Append (Append (Append [] req.Plan.Get.1)
        (c.ShouldSkip req).2) (c.TimeoutsCreate req.Plan.Get.2.Timeouts))
        "failed to initialize logger(s)" e, none⟩, []⟩ := by
      simp only [Create, h0, h1, hskip, TfBool.BoolValue, TfBool.ValueBool, hl]
      simp
    rw [hC]
    exact ⟨rfl, rfl, fun _ => HasError_AddError _ _ _⟩
  | ok u =>
    have hC : Create c rt r req = ⟨⟨ds, none⟩, []⟩ := by
      simp only [Create, h0, h1, hskip, TfBool.BoolValue, TfBool.ValueBool, hl]
      simp only [Bool.false_eq_true, if_false]
      rw [hds]
    rw [hC]
    exact ⟨rfl, rfl, herr⟩

end HarnessDocker
